import Mathlib

/-!
Shallow embedding of the `customer-service` application (the TypeScript
variant `src/index.ts` with the Kafka consumer, HTTP surface and analytics
notifications).  Pure data and control flow are translated directly; the
platform primitives `randomUUID()` and `new Date().toISOString()` are
modelled as explicit string parameters, `JSON.parse` as an `Option Json`
argument (`none` models a parse exception), and a publish call that may
throw as a boolean outcome flag.
-/

namespace CustomerService

/-- Customer tier enum, from `types.ts`: `'STANDARD' | 'GOLD' | 'PLATINUM'`. -/
inductive Tier where
  | STANDARD
  | GOLD
  | PLATINUM
deriving DecidableEq, Repr

/-- `CustomerPreferences` from `types.ts`: newsletter boolean, language string. -/
structure CustomerPreferences where
  newsletter : Bool
  language : String
deriving DecidableEq, Repr

/-- `Customer` from `types.ts`. -/
structure Customer where
  id : String
  email : String
  tier : Tier
  preferences : CustomerPreferences
deriving DecidableEq, Repr

/-- The in-memory customer store `customerStore : Map<string, Customer>`,
modelled as an association list with at most one binding per key kept live
(`set` erases the previous binding, as `Map.set` replaces it). -/
def Store := List (String × Customer)
deriving DecidableEq

/-- `customerStore.get(id)`. -/
def Store.get (s : Store) (k : String) : Option Customer :=
  List.lookup k s

/-- `customerStore.set(id, v)`: replaces any previous binding for `id`. -/
def Store.set (s : Store) (k : String) (v : Customer) : Store :=
  (k, v) :: List.eraseP (fun p => p.1 == k) s

/-- `defaultCustomer(customerId)` — the record synthesized on read-miss. -/
def defaultCustomer (customerId : String) : Customer :=
  { id := customerId
    email := customerId ++ "@example.com"
    tier := Tier.STANDARD
    preferences := { newsletter := true, language := "en-US" } }

/-- A JSON value, as produced by `JSON.parse` / the express `json()` body
parser.  Property access on a non-object yields `undefined`, modelled as
`none` in `Json.getField`. -/
inductive Json where
  | null
  | bool (b : Bool)
  | num (n : Int)
  | str (s : String)
  | arr (elems : List Json)
  | obj (fields : List (String × Json))

/-- JS property access `j.k`: a field lookup on an object, `undefined`
(here `none`) on anything else. -/
def Json.getField : Json → String → Option Json
  | Json.obj fields, k => List.lookup k fields
  | _, _ => none

/-- Optional chaining `j.k1?.k2`, as in `payload.preferences?.newsletter`. -/
def Json.getField2 (j : Json) (k1 k2 : String) : Option Json :=
  match j.getField k1 with
  | some j2 => j2.getField k2
  | none => none

/-- `typeof x === 'string'` guard plus the value: `some s` exactly when the
(possibly undefined) value is a JS string. -/
def jsAsString : Option Json → Option String
  | some (Json.str s) => some s
  | _ => none

/-- `typeof x === 'boolean'` guard plus the value. -/
def jsAsBool : Option Json → Option Bool
  | some (Json.bool b) => some b
  | _ => none

/-- JS `email.includes(at)` for the single-character needle used by the
POST validation: the character occurs among the string's characters. -/
def jsIncludesAtSign (s : String) : Bool :=
  s.data.contains '@'

/-- JS `String(b)` on a boolean. -/
def jsStringOfBool (b : Bool) : String :=
  if b then "true" else "false"

/-- An HTTP response body as serialized by the handlers. -/
inductive ResponseBody where
  | empty
  | customer (c : Customer)
  | preferences (p : CustomerPreferences)
  | error (msg : String)
deriving DecidableEq, Repr

/-- An HTTP response: status code and body. -/
structure HttpResponse where
  status : Nat
  body : ResponseBody
deriving DecidableEq, Repr

/-- `GET /customers/:customerId` (source lines 212-221): 404 on the reserved
sentinel id, otherwise 200 with the stored or synthesized record.  The
handler never writes, so the returned store is the input store. -/
def getCustomer (store : Store) (customerId : String) : Store × HttpResponse :=
  if customerId = "missing" then
    (store, { status := 404, body := ResponseBody.empty })
  else
    (store, { status := 200,
              body := ResponseBody.customer
                ((store.get customerId).getD (defaultCustomer customerId)) })

/-- `GET /customers/:customerId/preferences` (source lines 263-272). -/
def getCustomerPreferences (store : Store) (customerId : String) :
    Store × HttpResponse :=
  if customerId = "missing" then
    (store, { status := 404, body := ResponseBody.empty })
  else
    (store, { status := 200,
              body := ResponseBody.preferences
                ((store.get customerId).getD (defaultCustomer customerId)).preferences })

/-- The `status` field of a sync reply: `'SUCCESS' | 'NOT_FOUND'`. -/
inductive SyncStatus where
  | SUCCESS
  | NOT_FOUND
deriving DecidableEq, Repr

/-- Priority enum of an analytics notification. -/
inductive Priority where
  | LOW
  | NORMAL
  | HIGH
deriving DecidableEq, Repr

/-- `CustomerProfileUpdatedEvent` from `types.ts`. -/
structure CustomerProfileUpdatedEvent where
  eventId : String
  customerId : String
  updatedAt : String
  tier : Tier
deriving DecidableEq, Repr

/-- `AnalyticsNotificationEvent` from `types.ts`. -/
structure AnalyticsNotificationEvent where
  notificationId : String
  requestId : String
  title : String
  body : String
  priority : Priority
deriving DecidableEq, Repr

/-- `CustomerPreferenceSyncRequestEvent` from `types.ts` (inbound). -/
structure CustomerPreferenceSyncRequestEvent where
  requestId : String
  customerId : String
  requestedAt : String
deriving DecidableEq, Repr

/-- The stringified preferences of a sync reply:
`{newsletter: String(b), language: l}` (a `Record<string, string>`). -/
structure SyncReplyPreferences where
  newsletter : String
  language : String
deriving DecidableEq, Repr

/-- `CustomerPreferenceSyncReplyEvent` from `types.ts` (outbound);
`preferences?` is optional, hence `Option`. -/
structure CustomerPreferenceSyncReplyEvent where
  requestId : String
  customerId : String
  status : SyncStatus
  syncedAt : String
  preferenceVersion : Nat
  preferences : Option SyncReplyPreferences
deriving DecidableEq, Repr

/-- One outbound publish, tagged by kind, in publication order. -/
inductive OutEvent where
  | profileUpdated (e : CustomerProfileUpdatedEvent)
  | syncReply (e : CustomerPreferenceSyncReplyEvent)
  | analytics (e : AnalyticsNotificationEvent)
deriving DecidableEq, Repr

/-- `parsePreferenceSyncRequest` (source lines 132-151).  The argument is
the outcome of `JSON.parse(value)`: `none` models the thrown exception
caught by the surrounding `try`.  Each field must be typeof string. -/
def parsePreferenceSyncRequest (parseResult : Option Json) :
    Option CustomerPreferenceSyncRequestEvent :=
  match parseResult with
  | none => none
  | some j =>
    match jsAsString (j.getField "requestId"), jsAsString (j.getField "customerId"),
          jsAsString (j.getField "requestedAt") with
    | some r, some c, some t =>
      some { requestId := r, customerId := c, requestedAt := t }
    | _, _, _ => none

/-- `buildPreferenceSyncReply` (source lines 153-172): status SUCCESS
exactly when the store contains the id, preferences present only then,
with the newsletter boolean stringified. -/
def buildPreferenceSyncReply (store : Store)
    (request : CustomerPreferenceSyncRequestEvent) (now : String) :
    CustomerPreferenceSyncReplyEvent :=
  let found := store.get request.customerId
  { requestId := request.requestId
    customerId := request.customerId
    status := match found with
      | some _ => SyncStatus.SUCCESS
      | none => SyncStatus.NOT_FOUND
    syncedAt := now
    preferenceVersion := 1
    preferences := found.map fun c =>
      { newsletter := jsStringOfBool c.preferences.newsletter
        language := c.preferences.language } }

/-- `handlePreferenceSyncRequest` (source lines 182-196).  `raw` is
`payload.message.value?.toString()` (`none` for a null value); the guard
`if (!raw)` also drops the empty string.  `parseResult` is the outcome of
`JSON.parse raw`.  Returns the (unchanged) store and the published events
in order: profile-updated for the looked-up-or-synthesized customer, then
the sync reply. -/
def handlePreferenceSyncRequest (store : Store) (raw : Option String)
    (parseResult : Option Json) (eventId updatedNow syncedNow : String) :
    Store × List OutEvent :=
  match raw with
  | none => (store, [])
  | some s =>
    if s = "" then (store, [])
    else
      match parsePreferenceSyncRequest parseResult with
      | none => (store, [])
      | some request =>
        let customer :=
          (store.get request.customerId).getD (defaultCustomer request.customerId)
        (store,
         [OutEvent.profileUpdated
            { eventId := eventId, customerId := customer.id,
              updatedAt := updatedNow, tier := customer.tier },
          OutEvent.syncReply (buildPreferenceSyncReply store request syncedNow)])

/-- The tier check of the POST validation: JS strict equality
`payload.tier !== 'STANDARD' && ... !== 'GOLD' && ... !== 'PLATINUM'`
holds for any non-string and any other string. -/
def parseTier : Option Json → Option Tier
  | some (Json.str s) =>
    if s = "STANDARD" then some Tier.STANDARD
    else if s = "GOLD" then some Tier.GOLD
    else if s = "PLATINUM" then some Tier.PLATINUM
    else none
  | _ => none

/-- The `POST /customers` validation (source lines 226-235): email a string
containing a commercial at, tier in the enum, `preferences?.newsletter`
boolean, `preferences?.language` string.  `none` is the 400 branch. -/
def postValidated (body : Json) : Option (String × Tier × Bool × String) :=
  match jsAsString (body.getField "email"), parseTier (body.getField "tier"),
        jsAsBool (body.getField2 "preferences" "newsletter"),
        jsAsString (body.getField2 "preferences" "language") with
  | some email, some tier, some nl, some lang =>
    if jsIncludesAtSign email then some (email, tier, nl, lang) else none
  | _, _, _, _ => none

/-- `POST /customers` (source lines 223-261).  `freshId` models the
`randomUUID()` assigned as the new record's id, `notifId` the
notification's uuid; `analyticsOk` is the outcome of the analytics publish
(`false` models the caught-and-logged exception). -/
def postCustomers (store : Store) (body : Json) (freshId notifId : String)
    (analyticsOk : Bool) : Store × HttpResponse × List OutEvent :=
  match postValidated body with
  | none =>
    (store, { status := 400, body := ResponseBody.error "Invalid customer payload" }, [])
  | some (email, tier, nl, lang) =>
    let customer : Customer :=
      { id := freshId, email := email, tier := tier,
        preferences := { newsletter := nl, language := lang } }
    let store2 := store.set customer.id customer
    let events :=
      if analyticsOk then
        [OutEvent.analytics
          { notificationId := notifId, requestId := customer.id,
            title := "CustomerCreated",
            body := "Customer " ++ customer.id ++ " created",
            priority := Priority.NORMAL }]
      else []
    (store2, { status := 201, body := ResponseBody.customer customer }, events)

/-- The `PATCH /customers/:customerId/preferences` validation (source
lines 278-281): newsletter boolean, language string. -/
def patchValidated (body : Json) : Option (Bool × String) :=
  match jsAsBool (body.getField "newsletter"), jsAsString (body.getField "language") with
  | some nl, some lang => some (nl, lang)
  | _, _ => none

/-- `PATCH /customers/:customerId/preferences` (source lines 274-315).
`eventId`/`notifId` model the uuids, `now` the timestamp; `profileOk` and
`analyticsOk` are the outcomes of the two publish calls, each wrapped in
its own try/catch in the source, so neither affects store or response. -/
def patchPreferences (store : Store) (customerId : String) (body : Json)
    (eventId notifId now : String) (profileOk analyticsOk : Bool) :
    Store × HttpResponse × List OutEvent :=
  match patchValidated body with
  | none =>
    (store, { status := 400, body := ResponseBody.error "Invalid preferences payload" }, [])
  | some (nl, lang) =>
    let existing := (store.get customerId).getD (defaultCustomer customerId)
    let updated : Customer :=
      { existing with preferences := { newsletter := nl, language := lang } }
    let store2 := store.set customerId updated
    let ev1 :=
      if profileOk then
        [OutEvent.profileUpdated
          { eventId := eventId, customerId := updated.id,
            updatedAt := now, tier := updated.tier }]
      else []
    let ev2 :=
      if analyticsOk then
        [OutEvent.analytics
          { notificationId := notifId, requestId := customerId,
            title := "CustomerPreferencesUpdated",
            body := "Preferences updated for customer " ++ customerId,
            priority := Priority.NORMAL }]
      else []
    (store2, { status := 200, body := ResponseBody.preferences updated.preferences },
     ev1 ++ ev2)

/-- Reading back the key just written: `Map.set` then `Map.get` on the same
key yields the stored value. -/
theorem Store.get_set_self (s : Store) (k : String) (v : Customer) :
    (Store.set s k v).get k = some v := by
  simp [Store.get, Store.set, List.lookup]

end CustomerService

open CustomerService

/-- Claim C3: for every store state, `GET /customers/:id` and
`GET /customers/:id/preferences` return 404 exactly when the id is the
reserved sentinel `"missing"` (whatever the store holds for that id), and
200 for every other id. -/
theorem c3_reserved_sentinel_404 (store : Store) (id : String) :
    ((getCustomer store id).2.status = 404 ↔ id = "missing")
    ∧ ((getCustomerPreferences store id).2.status = 404 ↔ id = "missing")
    ∧ (id ≠ "missing" →
        (getCustomer store id).2.status = 200
        ∧ (getCustomerPreferences store id).2.status = 200) := by
  unfold getCustomer getCustomerPreferences
  by_cases h : id = "missing" <;> simp [h]

/-- Witness for C3: with a record stored under the sentinel id, GET still
returns 404; an ordinary unknown id returns 200. -/
theorem c3_witness :
    (getCustomer (Store.set [] "missing" (defaultCustomer "missing")) "missing").2.status = 404
    ∧ (getCustomer [] "c1").2.status = 200 :=
  ⟨(c3_reserved_sentinel_404 (Store.set [] "missing" (defaultCustomer "missing")) "missing").1.mpr rfl,
   ((c3_reserved_sentinel_404 [] "c1").2.2 (by decide)).1⟩

/-- Claim C4: for an id other than the sentinel that is absent from the
store, `GET /customers/:id` returns 200 with the synthesized default
record: the requested id, tier STANDARD, preferences
`{newsletter: true, language: "en-US"}`. -/
theorem c4_get_unknown_synthesizes_default (store : Store) (id : String)
    (hid : id ≠ "missing") (habs : store.get id = none) :
    getCustomer store id =
      (store,
       { status := 200,
         body := ResponseBody.customer
           { id := id, email := id ++ "@example.com", tier := Tier.STANDARD,
             preferences := { newsletter := true, language := "en-US" } } }) := by
  unfold getCustomer
  simp [hid, habs, defaultCustomer]

/-- Witness for C4 at the unknown id `"c1"` and the empty store. -/
theorem c4_witness :
    getCustomer [] "c1" =
      ([],
       { status := 200,
         body := ResponseBody.customer
           { id := "c1", email := "c1" ++ "@example.com", tier := Tier.STANDARD,
             preferences := { newsletter := true, language := "en-US" } } }) :=
  c4_get_unknown_synthesizes_default [] "c1" (by decide) rfl

/-- Claim C9: both GET handlers return the store untouched; in particular
a synthesized default is never written, so a second GET of the same
unknown id still misses the store and yields the same response. -/
theorem c9_get_never_writes (store : Store) (id : String) :
    (getCustomer store id).1 = store
    ∧ (getCustomerPreferences store id).1 = store
    ∧ getCustomer (getCustomer store id).1 id = getCustomer store id
    ∧ getCustomerPreferences (getCustomerPreferences store id).1 id =
        getCustomerPreferences store id
    ∧ (store.get id = none → ((getCustomer store id).1).get id = none) := by
  unfold getCustomer getCustomerPreferences
  by_cases h : id = "missing" <;> simp [h]

/-- Witness for C9: a read-miss on `"c1"` leaves the empty store empty. -/
theorem c9_witness :
    ((getCustomer [] "c1").1).get "c1" = none :=
  (c9_get_never_writes [] "c1").2.2.2.2 rfl

/-- Claim C1: for a non-empty raw message whose JSON parses to a valid
sync request, the consumer handler publishes exactly two events in order:
a profile-updated event for the customer looked up (or synthesized) by
customerId, then a sync reply correlated by requestId with status SUCCESS
exactly when the id was in the store, preferenceVersion 1, and
preferences (stringified) present only on SUCCESS; in the absent case the
profile event carries the default tier STANDARD and the reply is
NOT_FOUND with no preferences. -/
theorem c1_sync_request_publishes_two_events (store : Store) (s : String)
    (hs : s ≠ "") (parseResult : Option Json)
    (req : CustomerPreferenceSyncRequestEvent)
    (hreq : parsePreferenceSyncRequest parseResult = some req)
    (eventId updatedNow syncedNow : String) :
    handlePreferenceSyncRequest store (some s) parseResult eventId updatedNow syncedNow =
      (store,
       [OutEvent.profileUpdated
          { eventId := eventId,
            customerId := ((store.get req.customerId).getD (defaultCustomer req.customerId)).id,
            updatedAt := updatedNow,
            tier := ((store.get req.customerId).getD (defaultCustomer req.customerId)).tier },
        OutEvent.syncReply
          { requestId := req.requestId,
            customerId := req.customerId,
            status := if (store.get req.customerId).isSome then SyncStatus.SUCCESS
                      else SyncStatus.NOT_FOUND,
            syncedAt := syncedNow,
            preferenceVersion := 1,
            preferences := (store.get req.customerId).map fun c =>
              { newsletter := jsStringOfBool c.preferences.newsletter,
                language := c.preferences.language } }])
    ∧ (store.get req.customerId = none →
        handlePreferenceSyncRequest store (some s) parseResult eventId updatedNow syncedNow =
          (store,
           [OutEvent.profileUpdated
              { eventId := eventId, customerId := req.customerId,
                updatedAt := updatedNow, tier := Tier.STANDARD },
            OutEvent.syncReply
              { requestId := req.requestId, customerId := req.customerId,
                status := SyncStatus.NOT_FOUND, syncedAt := syncedNow,
                preferenceVersion := 1, preferences := none }])) := by
  cases hfound : store.get req.customerId <;>
    simp [handlePreferenceSyncRequest, buildPreferenceSyncReply, hs, hreq, hfound,
      defaultCustomer]

/-- Witness for C1: a request for the unknown id `"c1"` on the empty store
yields the synthesized profile event and a NOT_FOUND reply without
preferences. -/
theorem c1_witness :
    handlePreferenceSyncRequest [] (some "m")
      (some (Json.obj [("requestId", Json.str "r1"), ("customerId", Json.str "c1"),
        ("requestedAt", Json.str "2024-01-01T00:00:00Z")])) "e1" "u1" "s1" =
      ([],
       [OutEvent.profileUpdated
          { eventId := "e1", customerId := "c1", updatedAt := "u1",
            tier := Tier.STANDARD },
        OutEvent.syncReply
          { requestId := "r1", customerId := "c1", status := SyncStatus.NOT_FOUND,
            syncedAt := "s1", preferenceVersion := 1, preferences := none }]) :=
  (c1_sync_request_publishes_two_events [] "m" (by decide)
    (some (Json.obj [("requestId", Json.str "r1"), ("customerId", Json.str "c1"),
      ("requestedAt", Json.str "2024-01-01T00:00:00Z")]))
    { requestId := "r1", customerId := "c1", requestedAt := "2024-01-01T00:00:00Z" }
    rfl "e1" "u1" "s1").2 rfl

/-- Claim C2: an empty or absent raw value, a JSON parse failure, or a
parsed value in which requestId, customerId or requestedAt is missing or
not a string makes the consumer handler publish nothing and leave the
store unchanged. -/
theorem c2_invalid_sync_request_dropped (store : Store) (raw : Option String)
    (parseResult : Option Json) (eventId updatedNow syncedNow : String)
    (h : raw = none ∨ raw = some "" ∨ parseResult = none
      ∨ parsePreferenceSyncRequest parseResult = none) :
    handlePreferenceSyncRequest store raw parseResult eventId updatedNow syncedNow =
      (store, []) := by
  have hdrop : parseResult = none → parsePreferenceSyncRequest parseResult = none := by
    intro hp
    simp [parsePreferenceSyncRequest, hp]
  rcases h with h | h | h | h
  · simp [handlePreferenceSyncRequest, h]
  · simp [handlePreferenceSyncRequest, h]
  · cases raw with
    | none => simp [handlePreferenceSyncRequest]
    | some s =>
      by_cases hs : s = "" <;> simp [handlePreferenceSyncRequest, hs, hdrop h]
  · cases raw with
    | none => simp [handlePreferenceSyncRequest]
    | some s =>
      by_cases hs : s = "" <;> simp [handlePreferenceSyncRequest, hs, h]

/-- Witness for C2: a message missing `customerId` produces no events on
the empty store. -/
theorem c2_witness :
    handlePreferenceSyncRequest [] (some "m")
      (some (Json.obj [("requestId", Json.str "r1"),
        ("requestedAt", Json.str "2024-01-01T00:00:00Z")])) "e1" "u1" "s1" =
      ([], []) :=
  c2_invalid_sync_request_dropped [] (some "m")
    (some (Json.obj [("requestId", Json.str "r1"),
      ("requestedAt", Json.str "2024-01-01T00:00:00Z")])) "e1" "u1" "s1"
    (Or.inr (Or.inr (Or.inr rfl)))

/-- Counterexample to claim C5 as stated: at the sentinel id `"missing"`
the PATCH succeeds with 200 and the new preferences, but the subsequent
`GET /customers/missing/preferences` returns 404, not those preferences. -/
theorem c5_counterexample :
    (patchPreferences [] "missing"
      (Json.obj [("newsletter", Json.bool false), ("language", Json.str "fr-FR")])
      "e1" "n1" "t1" true true).2.1 =
      { status := 200,
        body := ResponseBody.preferences { newsletter := false, language := "fr-FR" } }
    ∧ (getCustomerPreferences
        (patchPreferences [] "missing"
          (Json.obj [("newsletter", Json.bool false), ("language", Json.str "fr-FR")])
          "e1" "n1" "t1" true true).1 "missing").2 =
      { status := 404, body := ResponseBody.empty } := by
  constructor <;> rfl

/-- Claim C5 (amended: the subsequent-GET clause holds for ids other than
the reserved sentinel): a valid PATCH stores a record whose preferences
are exactly the payload's, keeps id, email and tier from the stored record
or the synthesized default, returns 200 with exactly the new preferences,
and — for a non-sentinel id — a subsequent GET of the preferences returns
them. -/
theorem c5_patch_replaces_preferences (store : Store) (id : String) (body : Json)
    (nl : Bool) (lang : String) (hv : patchValidated body = some (nl, lang))
    (eventId notifId now : String) (pOk aOk : Bool) :
    (patchPreferences store id body eventId notifId now pOk aOk).2.1 =
      { status := 200,
        body := ResponseBody.preferences { newsletter := nl, language := lang } }
    ∧ (patchPreferences store id body eventId notifId now pOk aOk).1.get id =
        some { (store.get id).getD (defaultCustomer id) with
               preferences := { newsletter := nl, language := lang } }
    ∧ (id ≠ "missing" →
        (getCustomerPreferences
          (patchPreferences store id body eventId notifId now pOk aOk).1 id).2 =
          { status := 200,
            body := ResponseBody.preferences { newsletter := nl, language := lang } }) := by
  refine ⟨?_, ?_, ?_⟩
  · simp [patchPreferences, hv]
  · simp [patchPreferences, hv, Store.get_set_self]
  · intro hid
    simp [patchPreferences, hv, getCustomerPreferences, hid, Store.get_set_self]

/-- Witness for amended C5: updating `"c1"` on the empty store and reading
the preferences back. -/
theorem c5_witness :
    (getCustomerPreferences
      (patchPreferences [] "c1"
        (Json.obj [("newsletter", Json.bool false), ("language", Json.str "fr-FR")])
        "e1" "n1" "t1" true true).1 "c1").2 =
      { status := 200,
        body := ResponseBody.preferences { newsletter := false, language := "fr-FR" } } :=
  (c5_patch_replaces_preferences [] "c1"
    (Json.obj [("newsletter", Json.bool false), ("language", Json.str "fr-FR")])
    false "fr-FR" rfl "e1" "n1" "t1" true true).2.2 (by decide)

/-- Claim C6: a POST body failing any of the validation checks (email not
a string or lacking a commercial at, tier outside the enum, newsletter not
a boolean, language not a string), or a PATCH body failing its checks,
gets a 400 error response and leaves the store entirely unchanged, with
nothing published. -/
theorem c6_invalid_body_400_no_mutation (store : Store) (body : Json)
    (freshId notifId eventId now id : String) (pOk aOk : Bool) :
    ((jsAsString (body.getField "email") = none
      ∨ (∃ e, jsAsString (body.getField "email") = some e ∧ jsIncludesAtSign e = false)
      ∨ parseTier (body.getField "tier") = none
      ∨ jsAsBool (body.getField2 "preferences" "newsletter") = none
      ∨ jsAsString (body.getField2 "preferences" "language") = none) →
      postCustomers store body freshId notifId aOk =
        (store, { status := 400, body := ResponseBody.error "Invalid customer payload" }, []))
    ∧ ((jsAsBool (body.getField "newsletter") = none
        ∨ jsAsString (body.getField "language") = none) →
        patchPreferences store id body eventId notifId now pOk aOk =
          (store, { status := 400, body := ResponseBody.error "Invalid preferences payload" }, [])) := by
  constructor
  · intro h
    have hnone : postValidated body = none := by
      unfold postValidated
      split
      · rcases h with h | ⟨e, he, hc⟩ | h | h | h <;> simp_all
      · rfl
    simp [postCustomers, hnone]
  · intro h
    have hnone : patchValidated body = none := by
      unfold patchValidated
      split
      · rcases h with h | h <;> simp_all
      · rfl
    simp [patchPreferences, hnone]

/-- Witness for C6: the empty object fails both validations; the empty
store stays empty and both handlers answer 400. -/
theorem c6_witness :
    postCustomers [] (Json.obj []) "f1" "n1" true =
      ([], { status := 400, body := ResponseBody.error "Invalid customer payload" }, [])
    ∧ patchPreferences [] "c1" (Json.obj []) "e1" "n1" "t1" true true =
      ([], { status := 400, body := ResponseBody.error "Invalid preferences payload" }, []) :=
  ⟨(c6_invalid_body_400_no_mutation [] (Json.obj []) "f1" "n1" "e1" "t1" "c1" true true).1
    (Or.inl rfl),
   (c6_invalid_body_400_no_mutation [] (Json.obj []) "f1" "n1" "e1" "t1" "c1" true true).2
    (Or.inl rfl)⟩

/-- Claim C7: a valid POST returns 201 with a record carrying the freshly
generated id (`randomUUID()`, never the sentinel) and the payload's email,
tier and preferences, and a subsequent GET of that id returns the same
record. -/
theorem c7_post_create_get_roundtrip (store : Store) (body : Json)
    (email : String) (tier : Tier) (nl : Bool) (lang : String)
    (hv : postValidated body = some (email, tier, nl, lang))
    (freshId notifId : String) (hfresh : freshId ≠ "missing") (aOk : Bool) :
    (postCustomers store body freshId notifId aOk).2.1 =
      { status := 201,
        body := ResponseBody.customer
          { id := freshId, email := email, tier := tier,
            preferences := { newsletter := nl, language := lang } } }
    ∧ (getCustomer (postCustomers store body freshId notifId aOk).1 freshId).2 =
      { status := 200,
        body := ResponseBody.customer
          { id := freshId, email := email, tier := tier,
            preferences := { newsletter := nl, language := lang } } } := by
  constructor
  · simp [postCustomers, hv]
  · simp [postCustomers, hv, getCustomer, hfresh, Store.get_set_self]

/-- Witness for C7: creating a GOLD customer on the empty store and
reading it back under the fresh id. -/
theorem c7_witness :
    (getCustomer
      (postCustomers []
        (Json.obj [("email", Json.str "a@b.com"), ("tier", Json.str "GOLD"),
          ("preferences", Json.obj [("newsletter", Json.bool false),
            ("language", Json.str "fr-FR")])]) "f1" "n1" true).1 "f1").2 =
      { status := 200,
        body := ResponseBody.customer
          { id := "f1", email := "a@b.com", tier := Tier.GOLD,
            preferences := { newsletter := false, language := "fr-FR" } } } :=
  (c7_post_create_get_roundtrip []
    (Json.obj [("email", Json.str "a@b.com"), ("tier", Json.str "GOLD"),
      ("preferences", Json.obj [("newsletter", Json.bool false),
        ("language", Json.str "fr-FR")])])
    "a@b.com" Tier.GOLD false "fr-FR" (by decide) "f1" "n1" (by decide) true).2

/-- Claim C8: the outcomes of the publish calls (each caught and logged in
the source) change neither the store nor the HTTP response of POST or
PATCH, and the store mutation of a valid request survives even when every
publish fails. -/
theorem c8_publish_failure_never_surfaces (store : Store) (body : Json)
    (freshId notifId eventId now id : String) (pOk aOk : Bool) :
    ((postCustomers store body freshId notifId aOk).1 =
        (postCustomers store body freshId notifId true).1
      ∧ (postCustomers store body freshId notifId aOk).2.1 =
        (postCustomers store body freshId notifId true).2.1)
    ∧ ((patchPreferences store id body eventId notifId now pOk aOk).1 =
        (patchPreferences store id body eventId notifId now true true).1
      ∧ (patchPreferences store id body eventId notifId now pOk aOk).2.1 =
        (patchPreferences store id body eventId notifId now true true).2.1)
    ∧ (∀ email tier nl lang, postValidated body = some (email, tier, nl, lang) →
        (postCustomers store body freshId notifId false).1.get freshId =
          some { id := freshId, email := email, tier := tier,
                 preferences := { newsletter := nl, language := lang } })
    ∧ (∀ nl lang, patchValidated body = some (nl, lang) →
        (patchPreferences store id body eventId notifId now false false).1.get id =
          some { (store.get id).getD (defaultCustomer id) with
                 preferences := { newsletter := nl, language := lang } }) := by
  refine ⟨⟨?_, ?_⟩, ⟨?_, ?_⟩, ?_, ?_⟩
  · cases hv : postValidated body <;> simp [postCustomers, hv]
  · cases hv : postValidated body <;> simp [postCustomers, hv]
  · cases hv : patchValidated body <;> simp [patchPreferences, hv]
  · cases hv : patchValidated body <;> simp [patchPreferences, hv]
  · intro email tier nl lang hv
    simp [postCustomers, hv, Store.get_set_self]
  · intro nl lang hv
    simp [patchPreferences, hv, Store.get_set_self]

/-- Witness for C8: with every publish failing, the PATCH on `"c1"` and
the POST under fresh id `"f1"` still leave their records in the store. -/
theorem c8_witness :
    (patchPreferences [] "c1"
      (Json.obj [("newsletter", Json.bool false), ("language", Json.str "fr-FR")])
      "e1" "n1" "t1" false false).1.get "c1" =
      some { defaultCustomer "c1" with
             preferences := { newsletter := false, language := "fr-FR" } }
    ∧ (postCustomers []
        (Json.obj [("email", Json.str "a@b.com"), ("tier", Json.str "GOLD"),
          ("preferences", Json.obj [("newsletter", Json.bool false),
            ("language", Json.str "fr-FR")])]) "f1" "n1" false).1.get "f1" =
      some { id := "f1", email := "a@b.com", tier := Tier.GOLD,
             preferences := { newsletter := false, language := "fr-FR" } } :=
  ⟨(c8_publish_failure_never_surfaces []
      (Json.obj [("newsletter", Json.bool false), ("language", Json.str "fr-FR")])
      "f1" "n1" "e1" "t1" "c1" false false).2.2.2 false "fr-FR" rfl,
   (c8_publish_failure_never_surfaces []
      (Json.obj [("email", Json.str "a@b.com"), ("tier", Json.str "GOLD"),
        ("preferences", Json.obj [("newsletter", Json.bool false),
          ("language", Json.str "fr-FR")])])
      "f1" "n1" "e1" "t1" "c1" false false).2.2.1 "a@b.com" Tier.GOLD false "fr-FR"
      (by decide)⟩

/-- Claim C10: a valid PATCH on the sentinel id `"missing"` is not blocked
by the reserved-id check: it answers 200 and stores the record under
`"missing"`, yet every subsequent GET of `"missing"` (on any store, so in
particular on the resulting one) still answers 404 — the record is stored
but unreadable over HTTP. -/
theorem c10_patch_sentinel_stored_but_unreadable (store : Store) (body : Json)
    (nl : Bool) (lang : String) (hv : patchValidated body = some (nl, lang))
    (eventId notifId now : String) (pOk aOk : Bool) :
    (patchPreferences store "missing" body eventId notifId now pOk aOk).2.1 =
      { status := 200,
        body := ResponseBody.preferences { newsletter := nl, language := lang } }
    ∧ (patchPreferences store "missing" body eventId notifId now pOk aOk).1.get "missing" =
        some { (store.get "missing").getD (defaultCustomer "missing") with
               preferences := { newsletter := nl, language := lang } }
    ∧ (∀ store2 : Store,
        getCustomer store2 "missing" =
          (store2, { status := 404, body := ResponseBody.empty })
        ∧ getCustomerPreferences store2 "missing" =
          (store2, { status := 404, body := ResponseBody.empty })) := by
  refine ⟨?_, ?_, ?_⟩
  · simp [patchPreferences, hv]
  · simp [patchPreferences, hv, Store.get_set_self]
  · intro store2
    constructor <;> simp [getCustomer, getCustomerPreferences]

/-- Witness for C10: patching `"missing"` on the empty store stores the
record, and reading it back still answers 404. -/
theorem c10_witness :
    (patchPreferences [] "missing"
      (Json.obj [("newsletter", Json.bool true), ("language", Json.str "de-DE")])
      "e1" "n1" "t1" true true).1.get "missing" =
      some { defaultCustomer "missing" with
             preferences := { newsletter := true, language := "de-DE" } }
    ∧ getCustomer
        (patchPreferences [] "missing"
          (Json.obj [("newsletter", Json.bool true), ("language", Json.str "de-DE")])
          "e1" "n1" "t1" true true).1 "missing" =
      ((patchPreferences [] "missing"
          (Json.obj [("newsletter", Json.bool true), ("language", Json.str "de-DE")])
          "e1" "n1" "t1" true true).1,
       { status := 404, body := ResponseBody.empty }) :=
  ⟨(c10_patch_sentinel_stored_but_unreadable []
      (Json.obj [("newsletter", Json.bool true), ("language", Json.str "de-DE")])
      true "de-DE" rfl "e1" "n1" "t1" true true).2.1,
   ((c10_patch_sentinel_stored_but_unreadable []
      (Json.obj [("newsletter", Json.bool true), ("language", Json.str "de-DE")])
      true "de-DE" rfl "e1" "n1" "t1" true true).2.2
      (patchPreferences [] "missing"
        (Json.obj [("newsletter", Json.bool true), ("language", Json.str "de-DE")])
        "e1" "n1" "t1" true true).1).1⟩

example :
    (CustomerService.getCustomer [] "missing").2.status = 404 := by decide

example :
    (CustomerService.getCustomer [] "c1").2 =
      { status := 200,
        body := CustomerService.ResponseBody.customer
          (CustomerService.defaultCustomer "c1") } := by decide
